import Mathlib

/-!
Shallow embedding of the Agriculture Knowledge Base chatbot
(`projectagricututre.py`): the static knowledge base `agri_data`, the
name-normalization utility `normalize_name_map`, the comparator
`compare_items`, the inline compare-command router of the submit handler,
and the effect of one submission on the session message log.

Python string operations (`lower`, `strip`, `startswith`, `replace`,
`split(sep, 1)`, `in`, `capitalize`) are modelled structurally over the
character list of a `String`, so that everything evaluates inside the
kernel.  All strings in the program are ASCII-cased, for which
`Char.toLower`/`Char.toUpper` agree with Python's case mapping.
-/

namespace Agri

/-- Python `str` whitespace characters (ASCII subset used by `strip()`). -/
def pyIsSpace (c : Char) : Bool :=
  c == ' ' || c == '\t' || c == '\n' || c == '\r' || c == '\x0b' || c == '\x0c'

/-- Python `str.strip()` on a character list: drop leading and trailing
whitespace. -/
def pyStripList (l : List Char) : List Char :=
  ((l.dropWhile pyIsSpace).reverse.dropWhile pyIsSpace).reverse

/-- Python `s.strip()`. -/
def pyStrip (s : String) : String := ⟨pyStripList s.data⟩

/-- Python `s.lower()` (ASCII case mapping). -/
def pyLower (s : String) : String := ⟨s.data.map Char.toLower⟩

/-- Python `s.startswith(pre)`. -/
def pyStartswith (s pre : String) : Bool := pre.data.isPrefixOf s.data

/-- Auxiliary for `pyReplace`: replace every non-overlapping occurrence of
`pat` (left to right), with `fuel` bounding the recursion depth; `fuel`
is instantiated with the length of the scanned list, which suffices since
every step consumes at least one character. -/
def replaceAux (pat rep : List Char) : Nat → List Char → List Char
  | _, [] => []
  | 0, l => l
  | Nat.succ fuel, c :: rest =>
    if pat ≠ [] ∧ pat.isPrefixOf (c :: rest) then
      rep ++ replaceAux pat rep fuel ((c :: rest).drop pat.length)
    else
      c :: replaceAux pat rep fuel rest

/-- Python `s.replace(pat, rep)` for a non-empty `pat` (the program only
replaces the literal `"compare"`; Python's special case for an empty
pattern is not modelled). -/
def pyReplace (s pat rep : String) : String :=
  ⟨replaceAux pat.data rep.data s.data.length s.data⟩

/-- Find the first occurrence of `sep` in a list, returning the parts
before and after it. -/
def findSub (sep : List Char) : List Char → Option (List Char × List Char)
  | [] => if sep.isEmpty then some ([], []) else none
  | c :: rest =>
    if sep.isPrefixOf (c :: rest) then some ([], (c :: rest).drop sep.length)
    else
      match findSub sep rest with
      | some (pre, post) => some (c :: pre, post)
      | none => none

/-- Python `sub in s` (substring containment). -/
def pyContains (s sub : String) : Bool := (findSub sub.data s.data).isSome

/-- Python `s.split(sep, 1)` when `sep` occurs in `s`: the parts before and
after the first occurrence.  The program only calls this after checking
`sep in s`; the fallback pair for an absent separator is never used. -/
def pySplitFirst (s sep : String) : String × String :=
  match findSub sep.data s.data with
  | some (pre, post) => (⟨pre⟩, ⟨post⟩)
  | none => (s, "")

/-- Python `s.capitalize()`: first character upper-cased, the rest
lower-cased (ASCII case mapping). -/
def pyCapitalize (s : String) : String :=
  match s.data with
  | [] => ⟨[]⟩
  | c :: cs => ⟨c.toUpper :: cs.map Char.toLower⟩

/-- Python `s.drop` of the first `n` characters (used only to state the
router exactly as the spec phrases it). -/
def dropChars (s : String) (n : Nat) : String := ⟨s.data.drop n⟩

/-- A value of the `agri_data` dictionary: either a plain string or a
nested dictionary (in the program every value is a nested dictionary). -/
inductive AgriValue where
  | str (s : String)
  | dict (entries : List (String × String))
deriving DecidableEq

/-- Python `dict.get` on a dictionary modelled as an association list in
insertion order, where a repeated key overwrites the earlier binding
(hence the lookup from the reversed list: the last binding wins). -/
def pyGet {β : Type} (m : List (String × β)) (k : String) : Option β :=
  m.reverse.lookup k

/-- The static knowledge base, transcribed from `agri_data`. -/
def agri_data : List (String × AgriValue) := [
  ("Wheat", AgriValue.dict [
    ("season", "Rabi (October-March)"),
    ("soil", "Loamy soil with good drainage"),
    ("water", "Moderate irrigation; avoid waterlogging"),
    ("sowing", "Mid-Oct to Nov; seed rate 100-125 kg/ha"),
    ("fertilizer", "NPK 120:60:40 kg/ha"),
    ("harvesting", "March-April when grains are hard and golden"),
    ("common_issues", "Rust disease, waterlogging, lodging")]),
  ("Rice", AgriValue.dict [
    ("season", "Kharif (June-October) or Rabi in some regions"),
    ("soil", "Clayey soil with high water retention"),
    ("water", "Requires standing water in early stages; good drainage later"),
    ("sowing", "Nursery raising and transplanting after 20-25 days"),
    ("fertilizer", "Urea, DAP, MOP based on soil test"),
    ("harvesting", "Oct-Nov when panicles turn golden, grains hard"),
    ("common_issues", "Blast disease, brown planthopper, sheath blight")]),
  ("Maize", AgriValue.dict [
    ("season", "Both Kharif and Rabi; prefers warm conditions"),
    ("soil", "Well-drained loam or silty loam"),
    ("water", "Critical irrigation at tasseling and grain filling"),
    ("sowing", "June-July (Kharif), seed rate ~20 kg/ha"),
    ("fertilizer", "NPK 120:60:40 kg/ha; zinc if deficient"),
    ("harvesting", "Cob dries and husk turns brown; Nov-Dec"),
    ("common_issues", "Fall armyworm, stem borer, nitrogen deficiency")]),
  ("Sugarcane", AgriValue.dict [
    ("season", "Planting: Feb-April (spring) or Sept-Oct (autumn)"),
    ("soil", "Fertile loam with good drainage and moisture retention"),
    ("water", "High water requirement; regular irrigation"),
    ("sowing", "Setts (2-3 bud pieces) in furrows; proper spacing"),
    ("fertilizer", "High N requirement; split doses with micronutrients"),
    ("harvesting", "10-12 months after planting; when brix is optimal"),
    ("common_issues", "Red rot, smut, borers")]),
  ("Government Schemes", AgriValue.dict [
    ("PM-KISAN", "₹6,000/year direct benefit to eligible farmers (in installments)."),
    ("Soil Health Card", "Soil nutrient profile with fertilizer recommendations."),
    ("Kisan Credit Card", "Working capital loans for agriculture at subsidized rates.")]),
  ("Best Practices", AgriValue.dict [
    ("Soil testing", "Test soil every 2-3 years to optimize fertilizer use."),
    ("IPM", "Integrated Pest Management—monitor, use traps, bio-control, targeted sprays."),
    ("Water management", "Use mulching/drip to reduce water loss and weeds."),
    ("Seed quality", "Use certified, high-germination seeds suited to local climate.")])]

/-- `normalize_name_map(keys)`: the dictionary comprehension
`{k.lower(): k for k in keys}`, kept in comprehension order; `pyGet`
realizes the overwrite semantics for colliding lower-cased keys. -/
def normalize_name_map (keys : List String) : List (String × String) :=
  keys.map (fun k => (pyLower k, k))

/-- `agri_data.keys()`. -/
def kbKeys : List String := agri_data.map Prod.fst

/-- The `name_map` built inside `compare_items` from the knowledge-base
keys (the knowledge base is static, so it is the same on every call). -/
def name_map : List (String × String) := normalize_name_map kbKeys

/-- `d.keys()` of an entry dictionary. -/
def entryKeys (d : List (String × String)) : List String := d.map Prod.fst

/-- `agri_data[k] if isinstance(agri_data[k], dict) else {}` for a
canonical key `k` (the `none` case is unreachable: `k` is always a
knowledge-base key when this is evaluated). -/
def entryDict (k : String) : List (String × String) :=
  match pyGet agri_data k with
  | some (AgriValue.dict d) => d
  | _ => []

/-- The structured outcome of `compare_items`: the two early-return error
cases, or the canonical names together with the comparison rows
`(key, value1, value2)`. -/
inductive CompareResult where
  | entryNotFound
  | unsupported
  | table (k1 k2 : String) (rows : List (String × String × String))
deriving DecidableEq

/-- Python string `<=`: lexicographic comparison of the code points. -/
def pyListLe : List Char → List Char → Bool
  | [], _ => true
  | _ :: _, [] => false
  | a :: as, b :: bs =>
    if a.toNat < b.toNat then true
    else if b.toNat < a.toNat then false
    else pyListLe as bs

/-- `pyListLe` on strings, as a (decidable) relation. -/
def pyLe (a b : String) : Prop := pyListLe a.data b.data = true

instance : DecidableRel pyLe := fun a b => decEq (pyListLe a.data b.data) true

/-- Insert a string into a `pyListLe`-ascending list, keeping it ascending. -/
def insertKey (x : String) : List String → List String
  | [] => [x]
  | y :: ys => if pyListLe x.data y.data then x :: y :: ys else y :: insertKey x ys

/-- Ascending insertion sort under Python string comparison. -/
def sortKeys : List String → List String
  | [] => []
  | x :: xs => insertKey x (sortKeys xs)

/-- `sorted(set(d1.keys()).union(set(d2.keys())))`: the distinct union of
the two key sets in ascending lexicographic order. -/
def unionKeys (d1 d2 : List (String × String)) : List String :=
  sortKeys ((entryKeys d1 ++ entryKeys d2).dedup)

/-- The comparison rows: for each key of the sorted union, the two values,
`d.get(key, "N/A")` substituting `"N/A"` for an absent key. -/
def rowsFor (d1 d2 : List (String × String)) : List (String × String × String) :=
  (unionKeys d1 d2).map (fun k => (k, (pyGet d1 k).getD "N/A", (pyGet d2 k).getD "N/A"))

/-- The decision logic of `compare_items(name1, name2)`: normalize both
names, resolve them in `name_map` (`not k1 or not k2` in Python is
`None`-or-empty-string), coerce non-dict values to `{}`, reject an empty
dictionary, else build the rows. -/
def compare_core (name1 name2 : String) : CompareResult :=
  match pyGet name_map (pyLower name1), pyGet name_map (pyLower name2) with
  | some k1, some k2 =>
    if k1 = "" ∨ k2 = "" then CompareResult.entryNotFound
    else if entryDict k1 = [] ∨ entryDict k2 = [] then CompareResult.unsupported
    else CompareResult.table k1 k2 (rowsFor (entryDict k1) (entryDict k2))
  | _, _ => CompareResult.entryNotFound

/-- `"❌ One or both crop names were not found. Please check the names."` -/
def entryNotFoundMsg : String :=
  "❌ One or both crop names were not found. Please check the names."

/-- `"❌ Comparison is only supported for crop entries."` -/
def unsupportedMsg : String :=
  "❌ Comparison is only supported for crop entries."

/-- One markdown row:
`f"- *{key.capitalize()}*: {k1} → {v1} | {k2} → {v2}\n"`. -/
def renderRow (k1 k2 : String) (row : String × String × String) : String :=
  "- *" ++ pyCapitalize row.1 ++ "*: " ++ k1 ++ " → " ++ row.2.1 ++ " | " ++
    k2 ++ " → " ++ row.2.2 ++ "\n"

/-- The string `compare_items` returns in each outcome. -/
def render : CompareResult → String
  | CompareResult.entryNotFound => entryNotFoundMsg
  | CompareResult.unsupported => unsupportedMsg
  | CompareResult.table k1 k2 rows =>
      "### 📊 Comparison: " ++ k1 ++ " vs " ++ k2 ++ "\n" ++
        String.join (rows.map (renderRow k1 k2))

/-- `compare_items(name1, name2)`: the markdown or warning string. -/
def compare_items (name1 name2 : String) : String :=
  render (compare_core name1 name2)

/-- The structural crop test of `crop_like_items`: the entry dictionary
contains a `"season"` or a `"soil"` key. -/
def isAttributeShaped (d : List (String × String)) : Bool :=
  (entryKeys d).contains "season" || (entryKeys d).contains "soil"

/-- `crop_like_items = [k for k, v in agri_data.items() if isinstance(v, dict)
and ("season" in v or "soil" in v)]`. -/
def crop_like_items : List String :=
  (agri_data.filter (fun kv =>
    match kv.2 with
    | AgriValue.dict v => isAttributeShaped v
    | AgriValue.str _ => false)).map Prod.fst

/-- The classification of one raw input line by the submit handler. -/
inductive Route where
  | compare (a b : String)
  | malformed
  | question (text : String)
deriving DecidableEq

/-- The separator logic applied to `temp` (the processed remainder of a
compare command): split on the first `" and "`, else on the first
`" vs "`, else malformed; a `None` or empty side (`if p1 and p2`) is
malformed, otherwise both sides are stripped and compared. -/
def splitRemainder (temp : String) : Route :=
  if pyContains temp " and " then
    match pySplitFirst temp " and " with
    | (p1, p2) =>
      if p1 = "" ∨ p2 = "" then Route.malformed
      else Route.compare (pyStrip p1) (pyStrip p2)
  else if pyContains temp " vs " then
    match pySplitFirst temp " vs " with
    | (p1, p2) =>
      if p1 = "" ∨ p2 = "" then Route.malformed
      else Route.compare (pyStrip p1) (pyStrip p2)
  else Route.malformed

/-- The router of the submit handler: `low = user_input.lower().strip()`;
a compare command iff `low.startswith("compare")`, with
`temp = low.replace("compare", "").strip()` (every occurrence of
`"compare"` deleted); anything else is a question forwarded verbatim. -/
def route (input : String) : Route :=
  if pyStartswith (pyStrip (pyLower input)) "compare" then
    splitRemainder (pyStrip (pyReplace (pyStrip (pyLower input)) "compare" ""))
  else Route.question input

/-- The router as claim C3 words it: identical to `route` except that the
remainder is what follows the leading word `"compare"` (its 7
characters dropped), rather than the input with every occurrence of
`"compare"` deleted. -/
def routeClaimed (input : String) : Route :=
  if pyStartswith (pyStrip (pyLower input)) "compare" then
    splitRemainder (pyStrip (dropChars (pyStrip (pyLower input)) 7))
  else Route.question input

/-- `true` on the two outcomes of the compare-command branch. -/
def isCompareRoute : Route → Bool
  | Route.question _ => false
  | _ => true

/-- One message of the session log (`SystemMessage`, `HumanMessage`, or
the assistant reply appended after the model call). -/
inductive Message where
  | system (content : String)
  | human (content : String)
  | ai (content : String)
deriving DecidableEq

/-- What the submit handler renders for the current input: nothing extra,
a markdown block (`st.markdown`), or a warning (`st.warning`). -/
inductive Display where
  | nothing
  | markdown (s : String)
  | warning (s : String)
deriving DecidableEq

/-- `"⚠ Please use: Compare [Crop 1] and [Crop 2]"` -/
def usageWarning : String := "⚠ Please use: Compare [Crop 1] and [Crop 2]"

/-- The effect of one submission (`if user_input:` down to the model
call) on the session message log, with the chat model as an oracle
from the message log to the content of its reply: an empty input does
nothing; a compare-routed input renders without touching the log; a
question appends the user message, calls the model on the log including
it, and appends the reply unchanged. -/
def handle (llm : List Message → String) (messages : List Message)
    (user_input : String) : List Message × Display :=
  if user_input = "" then (messages, Display.nothing)
  else
    match route user_input with
    | Route.compare c1 c2 => (messages, Display.markdown (compare_items c1 c2))
    | Route.malformed => (messages, Display.warning usageWarning)
    | Route.question q =>
        (messages ++ [Message.human q,
          Message.ai (llm (messages ++ [Message.human q]))], Display.nothing)

/-! ## Helper lemmas -/

/-- A successful association-list lookup returns one of the stored values. -/
theorem lookup_mem_values {α β : Type} [BEq α] (l : List (α × β)) (k : α) (v : β)
    (h : l.lookup k = some v) : v ∈ l.map Prod.snd := by
  induction l with
  | nil => simp [List.lookup] at h
  | cons p rest ih =>
    rw [List.lookup] at h
    cases hb : (k == p.fst) with
    | true =>
      rw [hb] at h
      simp only [Option.some.injEq] at h
      rw [List.map]
      exact h ▸ List.mem_cons_self _ _
    | false =>
      rw [hb] at h
      rw [List.map]
      exact List.mem_cons_of_mem _ (ih h)

/-- Looking up `q` in the lower-cased-key pairs built from `l` finds the
first element of `l` whose lower-cased form is `q`. -/
theorem lookup_map_lower (l : List String) (q : String) :
    (l.map (fun k => (pyLower k, k))).lookup q = l.find? (fun k => pyLower k == q) := by
  induction l with
  | nil => rfl
  | cons a rest ih =>
    rw [List.map, List.lookup, List.find?]
    cases hb : (q == pyLower a) with
    | true =>
      have hb2 : (pyLower a == q) = true := by
        rw [beq_iff_eq] at hb ⊢
        exact hb.symm
      rw [hb2]
    | false =>
      have hb2 : (pyLower a == q) = false := by
        rw [beq_eq_false_iff_ne] at hb ⊢
        exact fun e => hb e.symm
      rw [hb2]
      exact ih

/-- When both names resolve, `compare_items` always reaches the table
branch: every knowledge-base entry is a non-empty dictionary, so the
`UnsupportedComparison` early return is unreachable. -/
theorem compare_core_resolved (n1 n2 k1 k2 : String)
    (h1 : pyGet name_map (pyLower n1) = some k1)
    (h2 : pyGet name_map (pyLower n2) = some k2) :
    compare_core n1 n2 =
      CompareResult.table k1 k2 (rowsFor (entryDict k1) (entryDict k2)) := by
  have hv1 : k1 ∈ name_map.reverse.map Prod.snd :=
    lookup_mem_values (name_map.reverse) (pyLower n1) k1 h1
  have hv2 : k2 ∈ name_map.reverse.map Prod.snd :=
    lookup_mem_values (name_map.reverse) (pyLower n2) k2 h2
  have hprop : ∀ x ∈ name_map.reverse.map Prod.snd,
      ¬x = "" ∧ ¬entryDict x = [] := by decide
  obtain ⟨hne1, hd1⟩ := hprop k1 hv1
  obtain ⟨hne2, hd2⟩ := hprop k2 hv2
  unfold compare_core
  rw [h1, h2]
  simp [hne1, hne2, hd1, hd2]

/-- The separator logic never classifies its input as a question. -/
theorem isCompareRoute_splitRemainder (t : String) :
    isCompareRoute (splitRemainder t) = true := by
  unfold splitRemainder
  repeat' split
  all_goals rfl

/-- An input whose lower-cased, stripped form starts with `"compare"` is
never routed as a question. -/
theorem route_not_question (input : String)
    (h : pyStartswith (pyStrip (pyLower input)) "compare" = true) (q : String) :
    route input ≠ Route.question q := by
  intro hr
  unfold route at hr
  rw [if_pos h] at hr
  have hc := isCompareRoute_splitRemainder
    (pyStrip (pyReplace (pyStrip (pyLower input)) "compare" ""))
  rw [hr] at hc
  simp [isCompareRoute] at hc

/-! ## Claims -/

/-- C1: for every pair of names that resolve (case-insensitively) to
attribute-shaped entries, the comparator returns a table for the two
canonical names whose row-key list is sorted lexicographically, free of
duplicates, and whose key set is the union of the two entries' key sets;
each row holds `d.get(key, "N/A")` from each side, substituting `"N/A"`
for an absent key.  (The attribute-shape hypotheses delimit the claim's
scope; the table branch is reached for every resolving pair.) -/
theorem C1_compare_attribute_union (n1 n2 k1 k2 : String)
    (h1 : pyGet name_map (pyLower n1) = some k1)
    (h2 : pyGet name_map (pyLower n2) = some k2)
    (_a1 : isAttributeShaped (entryDict k1) = true)
    (_a2 : isAttributeShaped (entryDict k2) = true) :
    compare_core n1 n2 =
      CompareResult.table k1 k2 (rowsFor (entryDict k1) (entryDict k2))
    ∧ List.Sorted pyLe (unionKeys (entryDict k1) (entryDict k2))
    ∧ (unionKeys (entryDict k1) (entryDict k2)).Nodup
    ∧ (unionKeys (entryDict k1) (entryDict k2)).toFinset
        = (entryKeys (entryDict k1)).toFinset ∪ (entryKeys (entryDict k2)).toFinset
    ∧ rowsFor (entryDict k1) (entryDict k2) =
        (unionKeys (entryDict k1) (entryDict k2)).map
          (fun k => (k, (pyGet (entryDict k1) k).getD "N/A",
            (pyGet (entryDict k2) k).getD "N/A")) := by
  have hv1 : k1 ∈ name_map.reverse.map Prod.snd :=
    lookup_mem_values (name_map.reverse) (pyLower n1) k1 h1
  have hv2 : k2 ∈ name_map.reverse.map Prod.snd :=
    lookup_mem_values (name_map.reverse) (pyLower n2) k2 h2
  have hfin : ∀ x ∈ name_map.reverse.map Prod.snd,
      ∀ y ∈ name_map.reverse.map Prod.snd,
      List.Sorted pyLe (unionKeys (entryDict x) (entryDict y))
      ∧ (unionKeys (entryDict x) (entryDict y)).Nodup
      ∧ (unionKeys (entryDict x) (entryDict y)).toFinset
          = (entryKeys (entryDict x)).toFinset ∪ (entryKeys (entryDict y)).toFinset := by
    decide
  obtain ⟨hs, hn, hu⟩ := hfin k1 hv1 k2 hv2
  exact ⟨compare_core_resolved n1 n2 k1 k2 h1 h2, hs, hn, hu, rfl⟩

/-- C1 witness: `compare("wheat", "RICE")` resolves to Wheat and Rice and
satisfies all parts of C1 concretely. -/
theorem C1_witness :
    compare_core "wheat" "RICE" =
      CompareResult.table "Wheat" "Rice" (rowsFor (entryDict "Wheat") (entryDict "Rice"))
    ∧ List.Sorted pyLe (unionKeys (entryDict "Wheat") (entryDict "Rice"))
    ∧ (unionKeys (entryDict "Wheat") (entryDict "Rice")).Nodup
    ∧ (unionKeys (entryDict "Wheat") (entryDict "Rice")).toFinset
        = (entryKeys (entryDict "Wheat")).toFinset ∪ (entryKeys (entryDict "Rice")).toFinset
    ∧ rowsFor (entryDict "Wheat") (entryDict "Rice") =
        (unionKeys (entryDict "Wheat") (entryDict "Rice")).map
          (fun k => (k, (pyGet (entryDict "Wheat") k).getD "N/A",
            (pyGet (entryDict "Rice") k).getD "N/A")) :=
  C1_compare_attribute_union "wheat" "RICE" "Wheat" "Rice"
    (by decide) (by decide) (by decide) (by decide)

/-- C2 counterexample: `"wheat"` and `"best practices"` both resolve,
`Best Practices` is flat (it has neither a `"season"` nor a `"soil"` key,
and is not in `crop_like_items`), yet the comparator produces a table
rather than the `UnsupportedComparison` warning. -/
theorem C2_counterexample_flat_compared :
    pyGet name_map (pyLower "wheat") = some "Wheat"
    ∧ pyGet name_map (pyLower "best practices") = some "Best Practices"
    ∧ isAttributeShaped (entryDict "Best Practices") = false
    ∧ "Best Practices" ∉ crop_like_items
    ∧ compare_core "wheat" "best practices" ≠ CompareResult.unsupported
    ∧ compare_items "wheat" "best practices" ≠ unsupportedMsg := by
  refine ⟨by decide, by decide, by decide, by decide, by decide, by decide⟩

/-- C2 amended: for every pair of names that both resolve to knowledge-base
keys, the comparator produces a comparison table — never the
`UnsupportedComparison` error, which is reachable only from an empty or
non-dictionary entry and no such entry exists; flat entries are compared,
not rejected. -/
theorem C2_amended_resolved_pairs_compared (n1 n2 k1 k2 : String)
    (h1 : pyGet name_map (pyLower n1) = some k1)
    (h2 : pyGet name_map (pyLower n2) = some k2) :
    compare_core n1 n2 =
      CompareResult.table k1 k2 (rowsFor (entryDict k1) (entryDict k2))
    ∧ compare_core n1 n2 ≠ CompareResult.unsupported := by
  have ht := compare_core_resolved n1 n2 k1 k2 h1 h2
  rw [ht]
  exact ⟨rfl, fun hc => CompareResult.noConfusion hc⟩

/-- C2 amended witness: comparing Wheat with the flat Best Practices entry
produces a table. -/
theorem C2_amended_witness :
    compare_core "Wheat" "Best Practices" =
      CompareResult.table "Wheat" "Best Practices"
        (rowsFor (entryDict "Wheat") (entryDict "Best Practices"))
    ∧ compare_core "Wheat" "Best Practices" ≠ CompareResult.unsupported :=
  C2_amended_resolved_pairs_compared "Wheat" "Best Practices" "Wheat" "Best Practices"
    (by decide) (by decide)

/-- C3 counterexample: on `"compare wheat and compare rice"` the code
deletes every occurrence of `"compare"` before splitting and so compares
`("wheat", "rice")`, while the claimed parsing — split what follows the
leading word `"compare"` — would compare `("wheat", "compare rice")`. -/
theorem C3_counterexample_remainder :
    route "compare wheat and compare rice" = Route.compare "wheat" "rice"
    ∧ routeClaimed "compare wheat and compare rice" = Route.compare "wheat" "compare rice"
    ∧ Route.compare "wheat" "compare rice" ≠ Route.compare "wheat" "rice" := by
  refine ⟨by decide, by decide, by decide⟩

/-- C3 amended: an input is routed as a compare command iff its
lower-cased, stripped form starts with `"compare"`; for such inputs the
remainder is the input with every occurrence of `"compare"` deleted and
whitespace stripped, split on the first `" and "`, else the first
`" vs "`, else malformed; and the three cited examples behave as stated,
the malformed one producing the usage warning rather than a crash. -/
theorem C3_amended_router :
    (∀ s : String, isCompareRoute (route s) = pyStartswith (pyStrip (pyLower s)) "compare")
    ∧ (∀ s : String, pyStartswith (pyStrip (pyLower s)) "compare" = true →
        route s = splitRemainder (pyStrip (pyReplace (pyStrip (pyLower s)) "compare" "")))
    ∧ route "Compare Wheat and Rice" = Route.compare "wheat" "rice"
    ∧ route "compare wheat vs maize" = Route.compare "wheat" "maize"
    ∧ route "compare wheat" = Route.malformed
    ∧ handle (fun _ => "") [] "compare wheat" = ([], Display.warning usageWarning) := by
  refine ⟨?_, ?_, by decide, by decide, by decide, by decide⟩
  · intro s
    cases hb : pyStartswith (pyStrip (pyLower s)) "compare" with
    | true =>
      unfold route
      rw [if_pos hb]
      exact isCompareRoute_splitRemainder _
    | false =>
      unfold route
      rw [if_neg (by simp [hb])]
      rfl
  · intro s h
    unfold route
    rw [if_pos h]

/-- C3 amended witness: the remainder characterization applied to a
concrete compare command. -/
theorem C3_amended_witness :
    route "compare wheat and rice" =
      splitRemainder (pyStrip (pyReplace (pyStrip (pyLower "compare wheat and rice"))
        "compare" "")) :=
  C3_amended_router.2.1 "compare wheat and rice" (by decide)

/-- C4: the comparator is case-insensitive — its result depends only on
the lower-cased forms of its two arguments, so any case variants of the
stored names give the same result as the stored casing. -/
theorem C4_case_insensitive (n1 n2 m1 m2 : String)
    (h1 : pyLower n1 = pyLower m1) (h2 : pyLower n2 = pyLower m2) :
    compare_items n1 n2 = compare_items m1 m2 := by
  unfold compare_items compare_core
  rw [h1, h2]

/-- C4 witness: `compare("wheat", "RICE")` equals `compare("Wheat", "Rice")`. -/
theorem C4_witness :
    compare_items "wheat" "RICE" = compare_items "Wheat" "Rice" :=
  C4_case_insensitive "wheat" "RICE" "Wheat" "Rice" (by decide) (by decide)

/-- C5: whenever at least one input name does not (case-insensitively)
normalize to a knowledge-base key, the comparator takes the
`EntryNotFound` outcome and returns it as the plain warning string (the
comparator is a total function into strings: neither error propagates as
an exception). -/
theorem C5_entry_not_found (n1 n2 : String)
    (h : pyGet name_map (pyLower n1) = none ∨ pyGet name_map (pyLower n2) = none) :
    compare_core n1 n2 = CompareResult.entryNotFound
    ∧ compare_items n1 n2 = entryNotFoundMsg
    ∧ render CompareResult.entryNotFound = entryNotFoundMsg
    ∧ render CompareResult.unsupported = unsupportedMsg := by
  have hc : compare_core n1 n2 = CompareResult.entryNotFound := by
    unfold compare_core
    rcases h with h | h
    · rw [h]
    · rw [h]
      cases hf : pyGet name_map (pyLower n1) <;> rfl
  refine ⟨hc, ?_, rfl, rfl⟩
  rw [compare_items, hc]
  rfl

/-- C5 witness: `compare("Wheat", "Quinoa")` fails with `EntryNotFound`. -/
theorem C5_witness :
    compare_core "Wheat" "Quinoa" = CompareResult.entryNotFound
    ∧ compare_items "Wheat" "Quinoa" = entryNotFoundMsg
    ∧ render CompareResult.entryNotFound = entryNotFoundMsg
    ∧ render CompareResult.unsupported = unsupportedMsg :=
  C5_entry_not_found "Wheat" "Quinoa" (Or.inr (by decide))

/-- C6 counterexample: `compare("Wheat", "PM-KISAN")` returns the
`EntryNotFound` outcome and warning, not `UnsupportedComparison` —
`PM-KISAN` is not a top-level key, so resolution fails first. -/
theorem C6_counterexample_pmkisan :
    compare_core "Wheat" "PM-KISAN" = CompareResult.entryNotFound
    ∧ CompareResult.entryNotFound ≠ CompareResult.unsupported
    ∧ compare_items "Wheat" "PM-KISAN" ≠ unsupportedMsg := by
  refine ⟨by decide, by decide, by decide⟩

/-- C6 amended: `compare("Wheat", "PM-KISAN")` fails with `EntryNotFound`
(`PM-KISAN` is nested inside the flat Government Schemes entry and is not
a top-level key, so the name does not resolve). -/
theorem C6_amended_entry_not_found :
    pyGet name_map (pyLower "PM-KISAN") = none
    ∧ compare_core "Wheat" "PM-KISAN" = CompareResult.entryNotFound
    ∧ compare_items "Wheat" "PM-KISAN" = entryNotFoundMsg := by
  refine ⟨by decide, by decide, by decide⟩

/-- C7: a submission routed as a compare command — well-formed, malformed,
or ending in a comparator error — leaves the session message log exactly
as it was. -/
theorem C7_compare_preserves_history (llm : List Message → String)
    (messages : List Message) (input : String)
    (h : pyStartswith (pyStrip (pyLower input)) "compare" = true) :
    (handle llm messages input).1 = messages := by
  have hne : input ≠ "" := by
    intro e
    subst e
    exact absurd h (by decide)
  unfold handle
  rw [if_neg hne]
  cases hr : route input with
  | compare a b => rfl
  | malformed => rfl
  | question q => exact absurd hr (route_not_question input h q)

/-- C7 witness: a concrete compare submission leaves a concrete log
unchanged. -/
theorem C7_witness :
    (handle (fun _ => "reply") [Message.system "sys"] "Compare Wheat and Rice").1
      = [Message.system "sys"] :=
  C7_compare_preserves_history (fun _ => "reply") [Message.system "sys"]
    "Compare Wheat and Rice" (by decide)

/-- C8: a non-empty, non-comparison submission appends exactly the user
message and then the model reply — computed from the log including that
user message — unmodified, and alters nothing else. -/
theorem C8_question_appends_two (llm : List Message → String)
    (messages : List Message) (input : String) (hne : input ≠ "")
    (h : pyStartswith (pyStrip (pyLower input)) "compare" = false) :
    handle llm messages input =
      (messages ++ [Message.human input,
        Message.ai (llm (messages ++ [Message.human input]))], Display.nothing) := by
  have hr : route input = Route.question input := by
    unfold route
    rw [if_neg (by simp [h])]
  unfold handle
  rw [if_neg hne, hr]

/-- C8 witness: a concrete question appends its user message and the
oracle reply, in order. -/
theorem C8_witness :
    handle (fun _ => "hello") [Message.system "sys"] "what is wheat" =
      ([Message.system "sys"] ++ [Message.human "what is wheat",
        Message.ai ((fun _ => "hello")
          ([Message.system "sys"] ++ [Message.human "what is wheat"]))],
        Display.nothing) :=
  C8_question_appends_two (fun _ => "hello") [Message.system "sys"] "what is wheat"
    (by decide) (by decide)

/-- C9: the comparator is a pure function of the (static) knowledge base
and its two arguments — repeated invocation is byte-identical, and the
rendered output of a compare-routed submission is independent of the
session log and of the chat-model oracle (no hidden state). -/
theorem C9_comparator_pure :
    (∀ n1 n2 : String, compare_items n1 n2 = compare_items n1 n2)
    ∧ ∀ (llm llm2 : List Message → String) (ms ms2 : List Message) (input : String),
        pyStartswith (pyStrip (pyLower input)) "compare" = true →
        (handle llm ms input).2 = (handle llm2 ms2 input).2 := by
  refine ⟨fun n1 n2 => rfl, ?_⟩
  intro llm llm2 ms ms2 input h
  have hne : input ≠ "" := by
    intro e
    subst e
    exact absurd h (by decide)
  unfold handle
  rw [if_neg hne, if_neg hne]
  cases hr : route input with
  | compare a b => rfl
  | malformed => rfl
  | question q => exact absurd hr (route_not_question input h q)

/-- C9 witness: two different oracles and logs produce the same rendered
comparison for the same compare command. -/
theorem C9_witness :
    (handle (fun _ => "a") [] "compare wheat and rice").2
      = (handle (fun _ => "b") [Message.system "sys"] "compare wheat and rice").2 :=
  C9_comparator_pure.2 (fun _ => "a") (fun _ => "b") [] [Message.system "sys"]
    "compare wheat and rice" (by decide)

/-- C10: `normalize_name_map` maps the lower-cased form of every input key
to a canonical key: looking up any query returns the last listed key whose
lower-cased form matches it (a later key overwrites an earlier collision),
and in particular a lookup of `k.lower()` succeeds for every stored key
`k`. -/
theorem C10_normalize_name_map (keys : List String) (q : String) :
    pyGet (normalize_name_map keys) q = keys.reverse.find? (fun k => pyLower k == q)
    ∧ ∀ k ∈ keys, (pyGet (normalize_name_map keys) (pyLower k)).isSome = true := by
  have hchar : ∀ r : String, pyGet (normalize_name_map keys) r
      = keys.reverse.find? (fun k => pyLower k == r) := by
    intro r
    show (normalize_name_map keys).reverse.lookup r = _
    rw [normalize_name_map, ← List.map_reverse]
    exact lookup_map_lower keys.reverse r
  refine ⟨hchar q, ?_⟩
  intro k hk
  rw [hchar (pyLower k)]
  rw [List.find?_isSome]
  exact ⟨k, List.mem_reverse.mpr hk, by rw [beq_iff_eq]⟩

/-- C10 witness: with colliding keys the later one wins, and lookups of
lower-cased stored keys succeed. -/
theorem C10_witness :
    pyGet (normalize_name_map ["Wheat", "WHEAT"]) "wheat"
      = ["Wheat", "WHEAT"].reverse.find? (fun k => pyLower k == "wheat")
    ∧ (pyGet (normalize_name_map ["Wheat", "WHEAT"]) (pyLower "Wheat")).isSome = true :=
  ⟨(C10_normalize_name_map ["Wheat", "WHEAT"] "wheat").1,
    (C10_normalize_name_map ["Wheat", "WHEAT"] "wheat").2 "Wheat" (by decide)⟩

end Agri
